import Mathlib

/-!
Verification of the Apollo Federation gateway (dispatch system):
unified authentication middleware (`src/middleware/authentication-unified.ts`),
resilient service health checker (`src/gateway/resilient-gateway.ts`) and the
server readiness flags (`server.js`).

Shallow embedding conventions:
* timestamps are `Nat` milliseconds (`Date.now()`);
* the JavaScript `Map` backing the token cache is an association list with
  `mapGet` / `mapSet` / `mapDelete` mirroring `Map.get` / `Map.set` /
  `Map.delete`;
* the md5 hex digest inside `getCacheKey` is modelled by the token string
  itself (an injective stand-in for a collision-resistant hash, matching the
  spec's collision-resistance assumption);
* network effects (the axios call to the authority, `jwt.verify`, the health
  probes) are passed in as explicit outcome parameters, so the functions under
  verification stay pure while retaining every branch of the source;
* a validator that `throw`s is modelled by returning `none` for the auth
  context it would have set.
-/

/-- A JavaScript `string | number` identifier value. -/
inductive JsId where
  | str : String → JsId
  | num : Int → JsId
deriving DecidableEq, Repr

/-- JavaScript truthiness of a `string | number` value:
`""` and `0` are falsy, everything else is truthy. -/
def JsId.truthy : JsId → Bool
  | .str s => s ≠ ""
  | .num n => n ≠ 0

/-- `AuthUser` from `authentication-unified.ts`; optional fields are absent
(`undefined`) when `none`.  `id` is optional because the JWT path can leave it
undefined when no subject claim is present. -/
structure AuthUser where
  id : Option JsId
  email : String
  nombre : Option String
  role : Option String
  roles : Option (List String)
  permissions : Option (List String)
deriving DecidableEq, Repr

/-- The token scheme tags of `detectTokenType`. -/
inductive TokenType where
  | sanctum
  | jwt
deriving DecidableEq, Repr

/-- The `req.auth` context attached by the middleware. -/
structure Auth where
  authenticated : Bool
  user : Option AuthUser
  token : Option String
  tokenType : Option TokenType
deriving DecidableEq, Repr

/-- `req.auth = { authenticated: false }`: the anonymous context, carrying no
user, token, scheme or error detail. -/
def anonymousAuth : Auth :=
  { authenticated := false, user := none, token := none, tokenType := none }

/-- `CacheEntry` from `authentication-unified.ts`. -/
structure CacheEntry where
  userData : AuthUser
  expiresAt : Nat
deriving DecidableEq, Repr

/-- The `tokenCache : Map<string, CacheEntry>` as an association list. -/
abbrev Cache := List (String × CacheEntry)

/-- `Map.get`. -/
def mapGet : Cache → String → Option CacheEntry
  | [], _ => none
  | (k0, v) :: rest, k => if k0 = k then some v else mapGet rest k

/-- `Map.set` (replaces an existing binding, else appends). -/
def mapSet : Cache → String → CacheEntry → Cache
  | [], k, v => [(k, v)]
  | (k0, v0) :: rest, k, v =>
    if k0 = k then (k, v) :: rest else (k0, v0) :: mapSet rest k v

/-- `Map.delete`. -/
def mapDelete : Cache → String → Cache
  | [], _ => []
  | (k0, v0) :: rest, k =>
    if k0 = k then mapDelete rest k else (k0, v0) :: mapDelete rest k

/-- `CACHE_TTL_SECONDS = 300`. -/
def CACHE_TTL_SECONDS : Nat := 300

/-- `getCacheKey`: the md5 hex digest is modelled by the token itself. -/
def getCacheKey (token : String) : String :=
  "token:" ++ token

/-- `getCachedValidation`: lazy-expiry read.  Returns the hit (if any) and the
cache after the lookup (an expired entry is deleted on the spot). -/
def getCachedValidation (now : Nat) (cache : Cache) (token : String) :
    Option AuthUser × Cache :=
  match mapGet cache (getCacheKey token) with
  | none => (none, cache)
  | some cached =>
    if now > cached.expiresAt then (none, mapDelete cache (getCacheKey token))
    else (some cached.userData, cache)

/-- `cacheValidation`: store a validation result with
`expiresAt = Date.now() + CACHE_TTL_SECONDS * 1000`. -/
def cacheValidation (now : Nat) (cache : Cache) (token : String)
    (userData : AuthUser) : Cache :=
  mapSet cache (getCacheKey token)
    { userData := userData, expiresAt := now + CACHE_TTL_SECONDS * 1000 }

/-- JavaScript `String.split` with a one-character separator, over the
string's character list: splitting the empty string gives `[""]`, and each
separator occurrence starts a new (possibly empty) part. -/
def splitOnChar (sep : Char) : List Char → List String
  | [] => [""]
  | c :: rest =>
    match splitOnChar sep rest with
    | [] => if c = sep then [""] else [String.mk [c]]
    | s :: tail =>
      if c = sep then "" :: s :: tail
      else String.mk (c :: s.data) :: tail

/-- `extractToken`: `authHeader.split(' ')` must give exactly two parts with
the literal word `Bearer` first; any deviation yields `null`. -/
def extractToken (authHeader : Option String) : Option String :=
  match authHeader with
  | none => none
  | some h =>
    match splitOnChar ' ' h.data with
    | [scheme, value] => if scheme = "Bearer" then some value else none
    | _ => none

/-- `detectTokenType`: `token.includes('|')` — with a one-character needle this
is membership of the pipe character in the string. -/
def detectTokenType (token : String) : TokenType :=
  if '|' ∈ token.data then .sanctum else .jwt

/-- The `validateToken` user object of the authority's GraphQL response
(fields `id`, `email`, `nombre`, `role`). -/
structure RemoteUser where
  id : Option JsId
  email : String
  nombre : Option String
  role : Option String
deriving DecidableEq, Repr

/-- The remote user object stored as `AuthUser` (the response object is cached
as-is, so `roles` and `permissions` stay undefined). -/
def RemoteUser.toAuthUser (r : RemoteUser) : AuthUser :=
  { id := r.id, email := r.email, nombre := r.nombre, role := r.role,
    roles := none, permissions := none }

/-- Outcome of the single axios POST to the authority:
a thrown transport error (refused / timeout / other), a response carrying a
top-level `errors` array, or a response whose `data.validateToken` payload is
the given optional user object. -/
inductive RemoteOutcome where
  | transportError
  | graphqlErrors
  | payload : Option RemoteUser → RemoteOutcome
deriving DecidableEq, Repr

/-- Result of one `validateSanctumToken` call: the auth context it set
(`none` when it threw), the token cache afterwards, and how many outbound
authority calls it made. -/
structure SanctumResult where
  auth : Option Auth
  cache : Cache
  outboundCalls : Nat
deriving DecidableEq, Repr

/-- `validateSanctumToken`: serve from cache when possible, otherwise make one
outbound call; cache and attach the identity on a well-formed response with a
truthy `id`; throw (``auth := none``) on transport error, GraphQL errors, or a
missing/falsy-id payload. -/
def validateSanctumToken (now : Nat) (cache : Cache) (token : String)
    (remote : RemoteOutcome) : SanctumResult :=
  match getCachedValidation now cache token with
  | (some cachedUser, cache1) =>
    { auth := some { authenticated := true, user := some cachedUser,
                     token := some token, tokenType := some .sanctum },
      cache := cache1, outboundCalls := 0 }
  | (none, cache1) =>
    match remote with
    | .transportError => { auth := none, cache := cache1, outboundCalls := 1 }
    | .graphqlErrors => { auth := none, cache := cache1, outboundCalls := 1 }
    | .payload none => { auth := none, cache := cache1, outboundCalls := 1 }
    | .payload (some userData) =>
      match userData.id with
      | none => { auth := none, cache := cache1, outboundCalls := 1 }
      | some j =>
        if j.truthy then
          { auth := some { authenticated := true,
                           user := some userData.toAuthUser,
                           token := some token, tokenType := some .sanctum },
            cache := cacheValidation now cache1 token userData.toAuthUser,
            outboundCalls := 1 }
        else { auth := none, cache := cache1, outboundCalls := 1 }

/-- The decoded JWT payload handed back by `jwt.verify` on success. -/
structure JwtPayload where
  userId : Option JsId
  sub : Option JsId
  id : Option JsId
  email : String
  nombre : Option String
  role : Option String
  roles : Option (List String)
  permissions : Option (List String)
deriving DecidableEq, Repr

/-- Outcome of `jwt.verify`: success, `TokenExpiredError`,
`JsonWebTokenError`, or any other error. -/
inductive JwtVerifyOutcome where
  | ok : JwtPayload → JwtVerifyOutcome
  | expiredError
  | jwtError
  | otherError
deriving DecidableEq, Repr

/-- JavaScript `a || b` on optional identifier values. -/
def jsIdOr (a b : Option JsId) : Option JsId :=
  match a with
  | some j => if j.truthy then some j else b
  | none => b

/-- `validateJWTToken`: on verified payload, map claims to an identity with
`id = decoded.userId || decoded.sub || decoded.id`; every error branch
rethrows (``none``). -/
def validateJWTToken (token : String) (outcome : JwtVerifyOutcome) :
    Option Auth :=
  match outcome with
  | .ok p =>
    some { authenticated := true,
           user := some { id := jsIdOr (jsIdOr p.userId p.sub) p.id,
                          email := p.email, nombre := p.nombre, role := p.role,
                          roles := p.roles, permissions := p.permissions },
           token := some token, tokenType := some .jwt }
  | .expiredError => none
  | .jwtError => none
  | .otherError => none

/-- Result of one `authenticateRequest` call: attached context, whether
`next()` ran, cache afterwards, outbound authority calls made. -/
structure ReqResult where
  auth : Auth
  nextCalled : Bool
  cache : Cache
  outboundCalls : Nat
deriving DecidableEq, Repr

/-- `authenticateRequest`: initialise the anonymous context, extract the
bearer token (`if (!token)` also treats the empty string as absent), classify,
route to the matching validator, collapse any validator failure back to the
anonymous context, and always call `next()`. -/
def authenticateRequest (now : Nat) (cache : Cache)
    (authHeader : Option String) (remote : RemoteOutcome)
    (jwtOut : JwtVerifyOutcome) : ReqResult :=
  match extractToken authHeader with
  | none =>
    { auth := anonymousAuth, nextCalled := true, cache := cache,
      outboundCalls := 0 }
  | some token =>
    if token = "" then
      { auth := anonymousAuth, nextCalled := true, cache := cache,
        outboundCalls := 0 }
    else
      match detectTokenType token with
      | .sanctum =>
        let r := validateSanctumToken now cache token remote
        match r.auth with
        | some a =>
          { auth := a, nextCalled := true, cache := r.cache,
            outboundCalls := r.outboundCalls }
        | none =>
          { auth := anonymousAuth, nextCalled := true, cache := r.cache,
            outboundCalls := r.outboundCalls }
      | .jwt =>
        match validateJWTToken token jwtOut with
        | some a =>
          { auth := a, nextCalled := true, cache := cache, outboundCalls := 0 }
        | none =>
          { auth := anonymousAuth, nextCalled := true, cache := cache,
            outboundCalls := 0 }

/-- Decision of the `requireAuth` / `requireRole` middlewares:
a 401 response, a 403 response, or `next()`. -/
inductive RoleDecision where
  | unauthorized
  | forbidden
  | pass
deriving DecidableEq, Repr

/-- JavaScript truthiness of an optional string (`undefined` and `""` falsy). -/
def strTruthy : Option String → Bool
  | none => false
  | some s => s ≠ ""

/-- JavaScript `a || b` on optional strings. -/
def jsStrOr (a b : Option String) : Option String :=
  if strTruthy a then a else b

/-- `req.auth.user?.role || req.auth.user?.roles?.[0]`. -/
def userEffectiveRole (user : Option AuthUser) : Option String :=
  jsStrOr (user.bind fun u => u.role)
    ((user.bind fun u => u.roles).bind List.head?)

/-- `requireRole(allowedRoles)` applied to a request whose `req.auth` is the
given optional context: 401 when unauthenticated, 403 when the single
effective role is absent, empty, or not in the allowed list, else `next()`. -/
def requireRole (allowedRoles : List String) (auth : Option Auth) :
    RoleDecision :=
  match auth with
  | none => .unauthorized
  | some a =>
    if a.authenticated = false then .unauthorized
    else
      match userEffectiveRole a.user with
      | none => .forbidden
      | some r =>
        if r = "" ∨ r ∉ allowedRoles then .forbidden else .pass

/-- The identity's full role set as the claim describes it:
its `role` (when present) plus all entries of `roles`. -/
def roleSet (u : AuthUser) : List String :=
  (match u.role with | some r => [r] | none => []) ++ u.roles.getD []

/-- State of `ResilientServiceChecker`: the two `Set<string>` fields, as
duplicate-free lists in insertion order. -/
structure CheckerState where
  availableServices : List String
  unavailableServices : List String
deriving DecidableEq, Repr

/-- `Set.add`. -/
def setAdd (l : List String) (x : String) : List String :=
  if x ∈ l then l else l ++ [x]

/-- `Set.delete` (a JS set holds each element at most once, so deletion
removes every list occurrence of it). -/
def setDelete (l : List String) (x : String) : List String :=
  l.filter (fun y => y ≠ x)

/-- The `ResilientGatewayStatus` record. -/
structure HealthResult where
  availableServices : List String
  unavailableServices : List String
  totalConfigured : Nat
deriving DecidableEq, Repr

/-- The probe loop of `checkServiceHealth`: walk the configured names in
order; a reachable name is pushed to the local `available` list, added to the
available set and deleted from the unavailable set; an unreachable name is
pushed to the local `unavailable` list and added to the unavailable set.
`reach` gives each endpoint's probe outcome (`response.ok` with no error). -/
def runChecks (reach : String → Bool) (config : List String)
    (st : CheckerState) (avail unavail : List String) :
    List String × List String × CheckerState :=
  match config with
  | [] => (avail, unavail, st)
  | name :: rest =>
    if reach name then
      runChecks reach rest
        { availableServices := setAdd st.availableServices name,
          unavailableServices := setDelete st.unavailableServices name }
        (avail ++ [name]) unavail
    else
      runChecks reach rest
        { st with unavailableServices := setAdd st.unavailableServices name }
        avail (unavail ++ [name])

/-- `checkServiceHealth`: run the probe loop over the configured names and
return the per-call result together with the updated checker state. -/
def checkServiceHealth (reach : String → Bool) (config : List String)
    (st : CheckerState) : HealthResult × CheckerState :=
  ({ availableServices := (runChecks reach config st [] []).1,
     unavailableServices := (runChecks reach config st [] []).2.1,
     totalConfigured := config.length },
   (runChecks reach config st [] []).2.2)

/-- `getStatus`: snapshot of the checker's sets. -/
def getStatus (config : List String) (st : CheckerState) : HealthResult :=
  { availableServices := st.availableServices,
    unavailableServices := st.unavailableServices,
    totalConfigured := config.length }

/-- The `serverStarted` / `schemaReady` flags of `server.js`. -/
structure ServerFlags where
  serverStarted : Bool
  schemaReady : Bool
deriving DecidableEq, Repr

/-- `let serverStarted = false; let schemaReady = false;`. -/
def initialFlags : ServerFlags :=
  { serverStarted := false, schemaReady := false }

/-- Events visible to `server.js`: the startup promise of
`apolloServer.start()` resolving or rejecting, and later (re-)composition
attempts by the gateway's polling engine. -/
inductive ServerEvent where
  | startResolved
  | startRejected
  | compositionSucceeded
  | compositionFailed
deriving DecidableEq, Repr

/-- How `server.js` updates the flags on each event.  The startup promise's
`then` sets both flags true; its `catch` sets `serverStarted := true` and
`schemaReady := false`.  No handler in `server.js` observes the polling
engine's later composition results, so those events leave the flags
untouched — `schemaReady` is assigned nowhere else in the file. -/
def stepFlags (s : ServerFlags) : ServerEvent → ServerFlags
  | .startResolved => { serverStarted := true, schemaReady := true }
  | .startRejected => { serverStarted := true, schemaReady := false }
  | .compositionSucceeded => s
  | .compositionFailed => s

/-- Flags after a sequence of events from boot. -/
def runFlags (events : List ServerEvent) : ServerFlags :=
  events.foldl stepFlags initialFlags

/-! ## Helper lemmas on the cache map -/

theorem mapGet_mapSet_self (m : Cache) (k : String) (v : CacheEntry) :
    mapGet (mapSet m k v) k = some v := by
  induction m with
  | nil => simp [mapSet, mapGet]
  | cons p rest ih =>
    obtain ⟨k0, v0⟩ := p
    by_cases h : k0 = k
    · simp [mapSet, h, mapGet]
    · simp [mapSet, h, mapGet, ih]

theorem mapGet_mapDelete_self (m : Cache) (k : String) :
    mapGet (mapDelete m k) k = none := by
  induction m with
  | nil => simp [mapDelete, mapGet]
  | cons p rest ih =>
    obtain ⟨k0, v0⟩ := p
    by_cases h : k0 = k
    · simp [mapDelete, h, ih]
    · simp [mapDelete, h, mapGet, ih]

/-- A sample identity used by concrete witnesses and counterexamples. -/
def demoUser : AuthUser :=
  { id := some (.num 7), email := "ops@hads.example", nombre := none,
    role := some "ADMIN", roles := none, permissions := none }

/-! ## Claims -/

/-- C8: for every credential string, the classifier returns the opaque
(sanctum) scheme exactly when the string contains the separator character
`|`, and the self-contained (jwt) scheme otherwise; being a plain Lean
function it is total, deterministic and side-effect-free. -/
theorem detectTokenType_pipe_classification (token : String) :
    (detectTokenType token = .sanctum ↔ '|' ∈ token.data)
    ∧ (detectTokenType token = .jwt ↔ '|' ∉ token.data) := by
  unfold detectTokenType
  by_cases h : '|' ∈ token.data <;> simp [h]

/-- C4 (code bug): after `apolloServer.start()` rejects at boot, no later
successful composition by the polling engine is ever observed by `server.js`,
so `schemaReady` stays `false` — the DEGRADED state never reaches READY,
contrary to the claim and to the repository's own resilient-startup guide. -/
theorem schemaReady_never_recovers_after_failed_start :
    runFlags [ServerEvent.startRejected, ServerEvent.compositionSucceeded]
      = { serverStarted := true, schemaReady := false }
    ∧ runFlags [ServerEvent.startRejected, ServerEvent.compositionSucceeded,
          ServerEvent.compositionFailed, ServerEvent.compositionSucceeded]
      = { serverStarted := true, schemaReady := false } := by
  exact ⟨rfl, rfl⟩

/-- C1 (counterexample): an entry written at `T = 0` with the default TTL is
still returned by a read at exactly `T + 300s` — the code only misses when
`Date.now()` is strictly greater than `expiresAt`, so the claimed miss at
every read time `≥ T + 300s` fails on this input. -/
theorem cache_read_at_exact_expiry_hits :
    CACHE_TTL_SECONDS * 1000 ≥ 0 + CACHE_TTL_SECONDS * 1000
    ∧ (getCachedValidation (CACHE_TTL_SECONDS * 1000)
        (cacheValidation 0 [] "1|abc" demoUser) "1|abc").1 = some demoUser := by
  exact ⟨le_refl _, by decide⟩

/-- C1 (amended): an entry written at time `T` with the default TTL is
returned unchanged by a read at any time `≤ T + 300s`, is a miss at any time
strictly greater than `T + 300s`, and a read never returns an entry whose
`expiresAt` lies strictly in the past. -/
theorem cache_ttl_read_characterization (cache : Cache) (token : String)
    (u : AuthUser) (T t : Nat) :
    (t ≤ T + CACHE_TTL_SECONDS * 1000 →
      (getCachedValidation t (cacheValidation T cache token u) token).1 = some u)
    ∧ (T + CACHE_TTL_SECONDS * 1000 < t →
      (getCachedValidation t (cacheValidation T cache token u) token).1 = none)
    ∧ (∀ c u2, (getCachedValidation t c token).1 = some u2 →
        ∃ e, mapGet c (getCacheKey token) = some e ∧ e.userData = u2 ∧
          t ≤ e.expiresAt) := by
  refine ⟨?_, ?_, ?_⟩
  · intro h
    unfold getCachedValidation cacheValidation
    rw [mapGet_mapSet_self]
    simp [Nat.not_lt.mpr h]
  · intro h
    unfold getCachedValidation cacheValidation
    rw [mapGet_mapSet_self]
    simp [h]
  · intro c u2 h
    unfold getCachedValidation at h
    cases hm : mapGet c (getCacheKey token) with
    | none => rw [hm] at h; simp at h
    | some e =>
      rw [hm] at h
      by_cases ht : e.expiresAt < t
      · simp [ht] at h
      · simp [ht] at h
        exact ⟨e, rfl, h, Nat.not_lt.mp ht⟩

/-- C1 (witness): concrete instance of the amended theorem, read 5ms after a
write at time 0. -/
theorem cache_ttl_read_characterization_witness :
    (getCachedValidation 5 (cacheValidation 0 [] "1|abc" demoUser) "1|abc").1
      = some demoUser :=
  (cache_ttl_read_characterization [] "1|abc" demoUser 0 5).1 (by decide)

/-- Any auth context actually set by the sanctum validator is an
authenticated one carrying a user. -/
theorem validateSanctumToken_auth_shape (now : Nat) (cache : Cache)
    (token : String) (remote : RemoteOutcome) (a : Auth) :
    (validateSanctumToken now cache token remote).auth = some a →
      a.authenticated = true ∧ ∃ u, a.user = some u := by
  unfold validateSanctumToken
  rcases hgc : getCachedValidation now cache token with ⟨ou, c1⟩
  cases ou with
  | some u =>
    intro h
    simp at h
    simp [← h]
  | none =>
    cases remote with
    | transportError => simp
    | graphqlErrors => simp
    | payload p =>
      cases p with
      | none => simp
      | some userData =>
        cases hid : userData.id with
        | none => simp [hid]
        | some j =>
          by_cases ht : j.truthy
          · intro h
            simp [hid, ht] at h
            simp [← h]
          · simp [hid, ht]

/-- Any auth context actually set by the JWT validator is an authenticated
one carrying a user. -/
theorem validateJWTToken_auth_shape (token : String) (o : JwtVerifyOutcome)
    (a : Auth) :
    validateJWTToken token o = some a →
      a.authenticated = true ∧ ∃ u, a.user = some u := by
  cases o with
  | ok p =>
    intro h
    simp [validateJWTToken] at h
    simp [← h]
  | expiredError => simp [validateJWTToken]
  | jwtError => simp [validateJWTToken]
  | otherError => simp [validateJWTToken]

/-- C2: for every request, `authenticateRequest` always calls `next()`
(it is a total function and `nextCalled` is `true` on every path), and the
attached context is either the bare anonymous context — carrying no error
detail, whatever the validator failure was — or an authenticated context with
an identity. -/
theorem authenticateRequest_always_continues (now : Nat) (cache : Cache)
    (authHeader : Option String) (remote : RemoteOutcome)
    (jwtOut : JwtVerifyOutcome) :
    (authenticateRequest now cache authHeader remote jwtOut).nextCalled = true
    ∧ ((authenticateRequest now cache authHeader remote jwtOut).auth
          = anonymousAuth
      ∨ ((authenticateRequest now cache authHeader remote jwtOut).auth.authenticated
            = true
        ∧ ∃ u, (authenticateRequest now cache authHeader remote jwtOut).auth.user
            = some u)) := by
  unfold authenticateRequest
  cases hex : extractToken authHeader with
  | none => simp
  | some token =>
    by_cases hempty : token = ""
    · simp [hempty]
    · simp only [hempty, if_false]
      cases hdt : detectTokenType token with
      | sanctum =>
        cases ha : (validateSanctumToken now cache token remote).auth with
        | none => simp [ha]
        | some a =>
          have := validateSanctumToken_auth_shape now cache token remote a ha
          simp [ha, this.1, this.2]
      | jwt =>
        cases hj : validateJWTToken token jwtOut with
        | none => simp [hj]
        | some a =>
          have := validateJWTToken_auth_shape token jwtOut a hj
          simp [hj, this.1, this.2]

/-- C2 (witness): concrete instance — remote authority unreachable, the
request continues with the anonymous context. -/
theorem authenticateRequest_always_continues_witness :
    (authenticateRequest 0 [] (some "Bearer 1|abc") RemoteOutcome.transportError
        JwtVerifyOutcome.otherError).nextCalled = true
    ∧ ((authenticateRequest 0 [] (some "Bearer 1|abc")
          RemoteOutcome.transportError JwtVerifyOutcome.otherError).auth
          = anonymousAuth
      ∨ ((authenticateRequest 0 [] (some "Bearer 1|abc")
            RemoteOutcome.transportError JwtVerifyOutcome.otherError).auth.authenticated
            = true
        ∧ ∃ u, (authenticateRequest 0 [] (some "Bearer 1|abc")
            RemoteOutcome.transportError JwtVerifyOutcome.otherError).auth.user
            = some u)) :=
  authenticateRequest_always_continues 0 [] (some "Bearer 1|abc")
    RemoteOutcome.transportError JwtVerifyOutcome.otherError

/-- A header that is present but malformed (not exactly two space-separated
parts, or first part not the literal `Bearer`) extracts no token. -/
theorem extractToken_malformed (h : String)
    (hm : (splitOnChar ' ' h.data).length ≠ 2
      ∨ (splitOnChar ' ' h.data).head? ≠ some "Bearer") :
    extractToken (some h) = none := by
  rcases hsp : splitOnChar ' ' h.data with _ | ⟨a, _ | ⟨b, _ | ⟨c, rest⟩⟩⟩
  · simp [extractToken, hsp]
  · simp [extractToken, hsp]
  · rw [hsp] at hm
    simp at hm
    simp [extractToken, hsp, hm]
  · simp [extractToken, hsp]

/-- C5: a request whose authorization header is absent or malformed (not
exactly two space-separated parts, or first part not the literal `Bearer`)
yields exactly the anonymous context, continues the request, touches neither
the cache nor the network, and its outcome is independent of the validators'
behaviour — no classification or validation is attempted. -/
theorem malformed_header_yields_anonymous (now : Nat) (cache : Cache)
    (authHeader : Option String) (remote remote2 : RemoteOutcome)
    (jwtOut jwtOut2 : JwtVerifyOutcome)
    (hm : ∀ h, authHeader = some h →
      (splitOnChar ' ' h.data).length ≠ 2
        ∨ (splitOnChar ' ' h.data).head? ≠ some "Bearer") :
    authenticateRequest now cache authHeader remote jwtOut
      = { auth := anonymousAuth, nextCalled := true, cache := cache,
          outboundCalls := 0 }
    ∧ authenticateRequest now cache authHeader remote jwtOut
      = authenticateRequest now cache authHeader remote2 jwtOut2 := by
  have hex : extractToken authHeader = none := by
    cases authHeader with
    | none => rfl
    | some h => exact extractToken_malformed h (hm h rfl)
  unfold authenticateRequest
  rw [hex]
  exact ⟨rfl, rfl⟩

/-- C5 (witness): the spec's own example `Authorization: Token xyz`. -/
theorem malformed_header_yields_anonymous_witness :
    authenticateRequest 0 [] (some "Token xyz") RemoteOutcome.transportError
        JwtVerifyOutcome.expiredError
      = { auth := anonymousAuth, nextCalled := true, cache := [],
          outboundCalls := 0 } :=
  (malformed_header_yields_anonymous 0 [] (some "Token xyz")
    RemoteOutcome.transportError RemoteOutcome.transportError
    JwtVerifyOutcome.expiredError JwtVerifyOutcome.expiredError
    (by intro h hh; injection hh with hh2; subst hh2; decide)).1

/-- Every path of the sanctum validator issues at most one outbound call. -/
theorem validateSanctumToken_calls_le_one (now : Nat) (cache : Cache)
    (token : String) (remote : RemoteOutcome) :
    (validateSanctumToken now cache token remote).outboundCalls ≤ 1 := by
  rcases hgc : getCachedValidation now cache token with ⟨ou, c1⟩
  cases ou with
  | some u => simp [validateSanctumToken, hgc]
  | none =>
    cases remote with
    | transportError => simp [validateSanctumToken, hgc]
    | graphqlErrors => simp [validateSanctumToken, hgc]
    | payload p =>
      cases p with
      | none => simp [validateSanctumToken, hgc]
      | some userData =>
        cases hid : userData.id with
        | none => simp [validateSanctumToken, hgc, hid]
        | some j =>
          by_cases ht : j.truthy <;> simp [validateSanctumToken, hgc, hid, ht]

/-- On a failed sanctum validation the cache lookup missed, the final cache is
exactly the post-lookup cache (nothing is stored), and one outbound call was
made. -/
theorem validateSanctumToken_failure_shape (now : Nat) (cache : Cache)
    (token : String) (remote : RemoteOutcome)
    (h : (validateSanctumToken now cache token remote).auth = none) :
    getCachedValidation now cache token
        = (none, (validateSanctumToken now cache token remote).cache)
    ∧ (validateSanctumToken now cache token remote).outboundCalls = 1 := by
  rcases hgc : getCachedValidation now cache token with ⟨ou, c1⟩
  cases ou with
  | some u => simp [validateSanctumToken, hgc] at h
  | none =>
    cases remote with
    | transportError => simp [validateSanctumToken, hgc]
    | graphqlErrors => simp [validateSanctumToken, hgc]
    | payload p =>
      cases p with
      | none => simp [validateSanctumToken, hgc]
      | some userData =>
        cases hid : userData.id with
        | none => simp [validateSanctumToken, hgc, hid]
        | some j =>
          by_cases ht : j.truthy
          · simp [validateSanctumToken, hgc, hid, ht] at h
          · simp [validateSanctumToken, hgc, hid, ht]

/-- A miss of the lazy-expiry read leaves the cache either untouched (entry
absent) or with the looked-up key deleted (entry expired); either way the key
is afterwards unbound. -/
theorem getCachedValidation_miss_shape (now : Nat) (cache c1 : Cache)
    (token : String)
    (h : getCachedValidation now cache token = (none, c1)) :
    (c1 = cache ∨ c1 = mapDelete cache (getCacheKey token))
    ∧ mapGet c1 (getCacheKey token) = none := by
  unfold getCachedValidation at h
  cases hm : mapGet cache (getCacheKey token) with
  | none =>
    rw [hm] at h
    simp at h
    exact ⟨Or.inl h.symm, by rw [← h]; exact hm⟩
  | some e =>
    rw [hm] at h
    by_cases hex : e.expiresAt < now
    · simp [hex] at h
      exact ⟨Or.inr h.symm, by rw [← h]; exact mapGet_mapDelete_self cache _⟩
    · simp [hex] at h

/-- A validation whose cache lookup misses always issues one outbound call. -/
theorem validateSanctumToken_miss_calls (now : Nat) (cache : Cache)
    (token : String) (remote : RemoteOutcome)
    (hm : mapGet cache (getCacheKey token) = none) :
    (validateSanctumToken now cache token remote).outboundCalls = 1 := by
  have hgc : getCachedValidation now cache token = (none, cache) := by
    unfold getCachedValidation
    rw [hm]
  cases remote with
  | transportError => simp [validateSanctumToken, hgc]
  | graphqlErrors => simp [validateSanctumToken, hgc]
  | payload p =>
    cases p with
    | none => simp [validateSanctumToken, hgc]
    | some userData =>
      cases hid : userData.id with
      | none => simp [validateSanctumToken, hgc, hid]
      | some j =>
        by_cases ht : j.truthy <;> simp [validateSanctumToken, hgc, hid, ht]

/-- C7 (counterexample): the claim says a failed validation leaves the
ValidationCache unchanged, but when the credential's entry has already
expired, the lookup inside the failing validation evicts it — the map after
the failure differs from the map before. -/
theorem sanctum_failure_evicts_expired_entry :
    (validateSanctumToken 2000
        [("token:1|x", { userData := demoUser, expiresAt := 1000 })] "1|x"
        RemoteOutcome.transportError).auth = none
    ∧ (validateSanctumToken 2000
        [("token:1|x", { userData := demoUser, expiresAt := 1000 })] "1|x"
        RemoteOutcome.transportError).cache
      ≠ [("token:1|x", { userData := demoUser, expiresAt := 1000 })] := by
  decide

/-- C7 (amended): a failed sanctum validation stores nothing: the cache is
unchanged except possibly for the lazy eviction of the credential's
already-expired entry, the credential's key is unbound afterwards, and its
next presentation therefore revalidates (issues an outbound call). -/
theorem sanctum_failure_stores_nothing (now : Nat) (cache : Cache)
    (token : String) (remote : RemoteOutcome)
    (hfail : (validateSanctumToken now cache token remote).auth = none) :
    ((validateSanctumToken now cache token remote).cache = cache
      ∨ (validateSanctumToken now cache token remote).cache
          = mapDelete cache (getCacheKey token))
    ∧ mapGet (validateSanctumToken now cache token remote).cache
        (getCacheKey token) = none
    ∧ ∀ t2 remote2,
        (validateSanctumToken t2
          (validateSanctumToken now cache token remote).cache token
          remote2).outboundCalls = 1 := by
  obtain ⟨hgc, _⟩ := validateSanctumToken_failure_shape now cache token remote hfail
  obtain ⟨hor, hnone⟩ := getCachedValidation_miss_shape now cache _ token hgc
  exact ⟨hor, hnone,
    fun t2 remote2 => validateSanctumToken_miss_calls t2 _ token remote2 hnone⟩

/-- C7 (witness): concrete instance — empty cache, authority rejects via a
GraphQL error; the cache stays empty and the next try calls out again. -/
theorem sanctum_failure_stores_nothing_witness :
    ((validateSanctumToken 0 [] "1|abc" RemoteOutcome.graphqlErrors).cache = []
      ∨ (validateSanctumToken 0 [] "1|abc" RemoteOutcome.graphqlErrors).cache
          = mapDelete [] (getCacheKey "1|abc"))
    ∧ mapGet (validateSanctumToken 0 [] "1|abc"
        RemoteOutcome.graphqlErrors).cache (getCacheKey "1|abc") = none
    ∧ ∀ t2 remote2,
        (validateSanctumToken t2
          (validateSanctumToken 0 [] "1|abc" RemoteOutcome.graphqlErrors).cache
          "1|abc" remote2).outboundCalls = 1 :=
  sanctum_failure_stores_nothing 0 [] "1|abc" RemoteOutcome.graphqlErrors
    (by decide)

/-- C6: an unexpired cache hit makes remote validation return the cached
identity with zero outbound calls; and for two sequential validations of the
same credential, if the first succeeds, a second one inside the TTL window
costs nothing extra — at most one outbound authority call in total. -/
theorem sanctum_cache_hit_skips_outbound (now : Nat) (cache : Cache)
    (token : String) (remote : RemoteOutcome) :
    (∀ u, (getCachedValidation now cache token).1 = some u →
      (validateSanctumToken now cache token remote).outboundCalls = 0
      ∧ (validateSanctumToken now cache token remote).auth
          = some { authenticated := true, user := some u, token := some token,
                   tokenType := some TokenType.sanctum })
    ∧ (∀ t2 remote2,
        (validateSanctumToken now cache token remote).auth ≠ none →
        t2 ≤ now + CACHE_TTL_SECONDS * 1000 →
        (validateSanctumToken now cache token remote).outboundCalls
          + (validateSanctumToken t2
              (validateSanctumToken now cache token remote).cache token
              remote2).outboundCalls ≤ 1) := by
  rcases hgc : getCachedValidation now cache token with ⟨ou, c1⟩
  constructor
  · intro u hu
    simp at hu
    subst hu
    simp [validateSanctumToken, hgc]
  · intro t2 remote2 hsucc ht2
    cases ou with
    | some u =>
      have h0 : (validateSanctumToken now cache token remote).outboundCalls = 0 := by
        simp [validateSanctumToken, hgc]
      rw [h0]
      simpa using validateSanctumToken_calls_le_one t2 _ token remote2
    | none =>
      cases remote with
      | transportError => simp [validateSanctumToken, hgc] at hsucc
      | graphqlErrors => simp [validateSanctumToken, hgc] at hsucc
      | payload p =>
        cases p with
        | none => simp [validateSanctumToken, hgc] at hsucc
        | some userData =>
          cases hid : userData.id with
          | none => simp [validateSanctumToken, hgc, hid] at hsucc
          | some j =>
            by_cases ht : j.truthy
            · have hcache : (validateSanctumToken now cache token
                  (RemoteOutcome.payload (some userData))).cache
                  = cacheValidation now c1 token userData.toAuthUser := by
                simp [validateSanctumToken, hgc, hid, ht]
              have hcalls : (validateSanctumToken now cache token
                  (RemoteOutcome.payload (some userData))).outboundCalls = 1 := by
                simp [validateSanctumToken, hgc, hid, ht]
              rw [hcalls, hcache]
              have hhit : getCachedValidation t2
                  (cacheValidation now c1 token userData.toAuthUser) token
                  = (some userData.toAuthUser,
                     cacheValidation now c1 token userData.toAuthUser) := by
                unfold getCachedValidation cacheValidation
                rw [mapGet_mapSet_self]
                simp [Nat.not_lt.mpr ht2]
              simp [validateSanctumToken, hhit]
            · simp [validateSanctumToken, hgc, hid, ht] at hsucc

/-- C6 (witness): concrete instance — an entry cached at time 0 serves a
validation at time 10 with no outbound call, even though the network is
down. -/
theorem sanctum_cache_hit_skips_outbound_witness :
    (validateSanctumToken 10 (cacheValidation 0 [] "1|abc" demoUser) "1|abc"
        RemoteOutcome.transportError).outboundCalls = 0
    ∧ (validateSanctumToken 10 (cacheValidation 0 [] "1|abc" demoUser) "1|abc"
        RemoteOutcome.transportError).auth
        = some { authenticated := true, user := some demoUser,
                 token := some "1|abc", tokenType := some TokenType.sanctum } :=
  (sanctum_cache_hit_skips_outbound 10 (cacheValidation 0 [] "1|abc" demoUser)
      "1|abc" RemoteOutcome.transportError).1 demoUser (by decide)

/-- An authenticated identity carrying no primary `role` but a secondary
`roles` list, used to exhibit the role-set gap of `requireRole`. -/
def rolesOnlyUser : AuthUser :=
  { id := some (.num 2), email := "medic@hads.example", nombre := none,
    role := none, roles := some ["PARAMEDIC", "DISPATCHER"],
    permissions := none }

/-- C3 (counterexample): an authenticated identity whose role set
{PARAMEDIC, DISPATCHER} intersects the allowed list [DISPATCHER], yet the
middleware answers 403 instead of passing — the code only consults
`role || roles[0]`, never the rest of `roles`. -/
theorem requireRole_ignores_secondary_roles :
    ("DISPATCHER" ∈ roleSet rolesOnlyUser ∧ "DISPATCHER" ∈ ["DISPATCHER"])
    ∧ requireRole ["DISPATCHER"]
        (some { authenticated := true, user := some rolesOnlyUser,
                token := some "tok", tokenType := some TokenType.jwt })
      = RoleDecision.forbidden := by
  decide

/-- C3 (amended): `requireRole(allowed)` passes exactly when the request is
authenticated and the single effective role — `user.role` if truthy, else
`user.roles[0]` — is present, non-empty and in the allowed list; it answers
401 exactly when the request is unauthenticated, and 403 otherwise. -/
theorem requireRole_effective_role_spec (allowedRoles : List String)
    (auth : Option Auth) :
    (requireRole allowedRoles auth = RoleDecision.pass ↔
      ∃ a, auth = some a ∧ a.authenticated = true ∧
        ∃ r, userEffectiveRole a.user = some r ∧ r ≠ "" ∧ r ∈ allowedRoles)
    ∧ (requireRole allowedRoles auth = RoleDecision.unauthorized ↔
        ∀ a, auth = some a → a.authenticated = false) := by
  cases auth with
  | none => simp [requireRole]
  | some a =>
    by_cases hauth : a.authenticated = false
    · simp [requireRole, hauth]
    · have hauth2 : a.authenticated = true := by
        cases h : a.authenticated
        · exact absurd h hauth
        · rfl
      cases hr : userEffectiveRole a.user with
      | none => simp [requireRole, hauth2, hr]
      | some r =>
        by_cases he : r = ""
        · simp [requireRole, hauth2, hr, he]
        · by_cases hmem : r ∈ allowedRoles
          · simp [requireRole, hauth2, hr, he, hmem]
          · simp [requireRole, hauth2, hr, he, hmem]

/-- C3 (witness): concrete instance of the amended characterization — a
primary ADMIN role against the allowed list [ADMIN] passes. -/
theorem requireRole_effective_role_spec_witness :
    requireRole ["ADMIN"]
      (some { authenticated := true, user := some demoUser,
              token := some "tok", tokenType := some TokenType.jwt })
      = RoleDecision.pass :=
  (requireRole_effective_role_spec ["ADMIN"] _).1.mpr
    ⟨_, rfl, rfl, "ADMIN", by decide, by decide, by decide⟩

/-! ## Helper lemmas on the health checker -/

theorem length_filter_partition (p : String → Bool) (l : List String) :
    (l.filter p).length + (l.filter (fun n => !p n)).length = l.length := by
  induction l with
  | nil => rfl
  | cons x xs ih =>
    by_cases h : p x <;> simp [List.filter_cons, h] <;> omega

theorem runChecks_accum (reach : String → Bool) (config : List String) :
    ∀ st avail unavail,
      (runChecks reach config st avail unavail).1
          = avail ++ config.filter (fun n => reach n)
      ∧ (runChecks reach config st avail unavail).2.1
          = unavail ++ config.filter (fun n => !reach n) := by
  induction config with
  | nil => intro st avail unavail; simp [runChecks]
  | cons name rest ih =>
    intro st avail unavail
    by_cases h : reach name <;>
      simp [runChecks, h, List.filter_cons, ih, List.append_assoc]

theorem mem_setAdd_of_mem (l : List String) (x y : String) (h : x ∈ l) :
    x ∈ setAdd l y := by
  unfold setAdd
  by_cases hy : y ∈ l <;> simp [hy, h]

theorem not_mem_setDelete_self (l : List String) (x : String) :
    x ∉ setDelete l x := by
  unfold setDelete
  simp

theorem not_mem_setAdd (l : List String) (x y : String) (hxy : x ≠ y)
    (h : x ∉ l) : x ∉ setAdd l y := by
  unfold setAdd
  by_cases hy : y ∈ l <;> simp [hy, h, hxy]

theorem runChecks_avail_mono (reach : String → Bool) (config : List String) :
    ∀ st avail unavail x, x ∈ st.availableServices →
      x ∈ (runChecks reach config st avail unavail).2.2.availableServices := by
  induction config with
  | nil =>
    intro st avail unavail x hx
    simpa [runChecks] using hx
  | cons name rest ih =>
    intro st avail unavail x hx
    by_cases h : reach name
    · simp only [runChecks, h, if_true]
      exact ih _ _ _ x (mem_setAdd_of_mem _ x name hx)
    · simp only [runChecks, h, if_false]
      exact ih _ _ _ x hx

theorem runChecks_unavail_preserve (reach : String → Bool)
    (config : List String) :
    ∀ st avail unavail x, reach x = true → x ∉ st.unavailableServices →
      x ∉ (runChecks reach config st avail unavail).2.2.unavailableServices := by
  induction config with
  | nil =>
    intro st avail unavail x hr hx
    simpa [runChecks] using hx
  | cons name rest ih =>
    intro st avail unavail x hr hx
    by_cases h : reach name
    · simp only [runChecks, h, if_true]
      apply ih _ _ _ x hr
      intro hmem
      exact hx (List.mem_of_mem_filter hmem)
    · simp only [runChecks, h, if_false]
      apply ih _ _ _ x hr
      apply not_mem_setAdd _ x name _ hx
      intro heq
      rw [heq] at hr
      exact h hr

theorem runChecks_unavail_cleared (reach : String → Bool)
    (config : List String) :
    ∀ st avail unavail x, x ∈ config → reach x = true →
      x ∉ (runChecks reach config st avail unavail).2.2.unavailableServices := by
  induction config with
  | nil =>
    intro st avail unavail x hx
    simp at hx
  | cons name rest ih =>
    intro st avail unavail x hx hr
    by_cases h : reach name
    · rcases List.mem_cons.mp hx with heq | hx2
      · subst heq
        simp only [runChecks, h, if_true]
        exact runChecks_unavail_preserve reach rest _ _ _ x hr
          (not_mem_setDelete_self _ x)
      · simp only [runChecks, h, if_true]
        exact ih _ _ _ x hx2 hr
    · rcases List.mem_cons.mp hx with heq | hx2
      · subst heq
        rw [hr] at h
        exact absurd rfl h
      · simp only [runChecks, h, if_false]
        exact ih _ _ _ x hx2 hr

/-- C9: one `checkServiceHealth` run over the configured endpoints reports as
available exactly the names that probed reachable (in configuration order),
as unavailable exactly the names that did not, with `totalConfigured` the
number of configured endpoints; every configured name lands in exactly one of
the two lists. -/
theorem checkServiceHealth_partitions_config (reach : String → Bool)
    (config : List String) (st : CheckerState) :
    (checkServiceHealth reach config st).1.availableServices
        = config.filter (fun n => reach n)
    ∧ (checkServiceHealth reach config st).1.unavailableServices
        = config.filter (fun n => !reach n)
    ∧ (checkServiceHealth reach config st).1.totalConfigured = config.length
    ∧ (checkServiceHealth reach config st).1.availableServices.length
        + (checkServiceHealth reach config st).1.unavailableServices.length
        = config.length
    ∧ ∀ n, n ∈ config →
        (n ∈ (checkServiceHealth reach config st).1.availableServices
          ∧ n ∉ (checkServiceHealth reach config st).1.unavailableServices)
        ∨ (n ∉ (checkServiceHealth reach config st).1.availableServices
          ∧ n ∈ (checkServiceHealth reach config st).1.unavailableServices) := by
  obtain ⟨h1, h2⟩ := runChecks_accum reach config st [] []
  have ha : (checkServiceHealth reach config st).1.availableServices
      = config.filter (fun n => reach n) := by
    simpa [checkServiceHealth] using h1
  have hu : (checkServiceHealth reach config st).1.unavailableServices
      = config.filter (fun n => !reach n) := by
    simpa [checkServiceHealth] using h2
  refine ⟨ha, hu, rfl, ?_, ?_⟩
  · rw [ha, hu]
    exact length_filter_partition (fun n => reach n) config
  · intro n hn
    rw [ha, hu]
    by_cases h : reach n
    · exact Or.inl ⟨List.mem_filter.mpr ⟨hn, h⟩, by simp [List.mem_filter, h]⟩
    · refine Or.inr ⟨by simp [List.mem_filter, h], ?_⟩
      refine List.mem_filter.mpr ⟨hn, ?_⟩
      simp [h]

/-- C9 (witness): with endpoints where exactly `despacho` is reachable,
`despacho` lands in the available list only. -/
theorem checkServiceHealth_partitions_config_witness :
    ("despacho" ∈ (checkServiceHealth (fun n => n == "despacho")
        ["despacho", "decision"]
        { availableServices := [], unavailableServices := [] }).1.availableServices
      ∧ "despacho" ∉ (checkServiceHealth (fun n => n == "despacho")
        ["despacho", "decision"]
        { availableServices := [], unavailableServices := [] }).1.unavailableServices)
    ∨ ("despacho" ∉ (checkServiceHealth (fun n => n == "despacho")
        ["despacho", "decision"]
        { availableServices := [], unavailableServices := [] }).1.availableServices
      ∧ "despacho" ∈ (checkServiceHealth (fun n => n == "despacho")
        ["despacho", "decision"]
        { availableServices := [], unavailableServices := [] }).1.unavailableServices) :=
  (checkServiceHealth_partitions_config (fun n => n == "despacho")
      ["despacho", "decision"]
      { availableServices := [], unavailableServices := [] }).2.2.2.2
    "despacho" (by decide)

/-- C10: the checker's `availableServices` set only ever grows — a probe run
never removes a name from it — while a name probing reachable is removed from
`unavailableServices`; consequently, a service that probed reachable once and
unreachable in a later run is reported by `getStatus` in both sets at once. -/
theorem availableServices_monotone_overlap :
    (∀ reach config st x, x ∈ st.availableServices →
        x ∈ (checkServiceHealth reach config st).2.availableServices)
    ∧ (∀ reach config st x, x ∈ config → reach x = true →
        x ∉ (checkServiceHealth reach config st).2.unavailableServices)
    ∧ ("despacho" ∈ (getStatus ["despacho"]
          (checkServiceHealth (fun _ => false) ["despacho"]
            (checkServiceHealth (fun _ => true) ["despacho"]
              { availableServices := [], unavailableServices := [] }).2).2).availableServices
      ∧ "despacho" ∈ (getStatus ["despacho"]
          (checkServiceHealth (fun _ => false) ["despacho"]
            (checkServiceHealth (fun _ => true) ["despacho"]
              { availableServices := [], unavailableServices := [] }).2).2).unavailableServices) := by
  refine ⟨?_, ?_, ?_⟩
  · intro reach config st x hx
    exact runChecks_avail_mono reach config st [] [] x hx
  · intro reach config st x hx hr
    exact runChecks_unavail_cleared reach config st [] [] x hx hr
  · constructor <;> decide

/-- C10 (witness): concrete instance of monotonicity — a name already in the
available set survives a run in which every probe fails. -/
theorem availableServices_monotone_overlap_witness :
    "despacho" ∈ (checkServiceHealth (fun _ => false) ["despacho"]
      { availableServices := ["despacho"],
        unavailableServices := [] }).2.availableServices :=
  availableServices_monotone_overlap.1 (fun _ => false) ["despacho"]
    { availableServices := ["despacho"], unavailableServices := [] }
    "despacho" (by decide)
